import Mathlib

/-!
Shallow embedding of the cluster resource synthesis and reconciliation core
(`pkg/cluster/objects.go` of the postgres operator): the data model, the
object synthesizers, and the per-kind reconcile drivers, together with proofs
of the specified properties.

Platform calls are modelled by passing the platform's responses in explicitly
and recording every call and log line in an event trace; the Go panic raised
by a malformed resource quantity is modelled as an `Except.error` result.
-/

/-- Error conditions distinguishable by the reconcile driver, as returned by
the orchestration client (`nil` errors are modelled as `Option.none`). -/
inductive KubeErr
  | notFound
  | alreadyExists
  | other (msg : String)
  deriving DecidableEq

/-- Modelled from the spec: `k8sutil.ResourceNotFound` (defined outside
`objects.go`), the distinguishable "not found" condition of the client. -/
def ResourceNotFound : Option KubeErr → Bool
  | some KubeErr.notFound => true
  | _ => false

/-- Modelled from the spec: `k8sutil.IsKubernetesResourceAlreadyExistError`
(defined outside `objects.go`), the distinguishable "already exists"
condition of the client. -/
def IsKubernetesResourceAlreadyExistError : Option KubeErr → Bool
  | some KubeErr.alreadyExists => true
  | _ => false

/-- A parsed resource quantity; the platform library keeps the textual form,
which is all this core uses. -/
structure Quantity where
  s : String
  deriving DecidableEq

/-- Splits a character list into its leading run of decimal digits and the
rest. -/
def splitDigits : List Char → List Char × List Char
  | [] => ([], [])
  | c :: cs =>
    if c.isDigit then
      let p := splitDigits cs
      (c :: p.1, p.2)
    else ([], c :: cs)

/-- Consumes the number part of a quantity (`digits`, `digits.digits`,
`digits.`, or `.digits`), returning the unconsumed rest, or `none` when no
number is present. -/
def parseNumber (cs : List Char) : Option (List Char) :=
  let p := splitDigits cs
  if p.1.isEmpty then
    match p.2 with
    | '.' :: rest =>
      let q := splitDigits rest
      if q.1.isEmpty then none else some q.2
    | _ => none
  else
    match p.2 with
    | '.' :: rest => some (splitDigits rest).2
    | _ => some p.2

/-- Checks the suffix part of a quantity: empty, a decimal SI suffix, a
binary SI suffix, or a decimal exponent. -/
def validSuffix : List Char → Bool
  | [] => true
  | ['n'] => true
  | ['u'] => true
  | ['m'] => true
  | ['k'] => true
  | ['M'] => true
  | ['G'] => true
  | ['T'] => true
  | ['P'] => true
  | ['E'] => true
  | ['K', 'i'] => true
  | ['M', 'i'] => true
  | ['G', 'i'] => true
  | ['T', 'i'] => true
  | ['P', 'i'] => true
  | ['E', 'i'] => true
  | c :: rest =>
    if c = 'e' || c = 'E' then
      let rest2 :=
        match rest with
        | '+' :: r => r
        | '-' :: r => r
        | r => r
      let q := splitDigits rest2
      !q.1.isEmpty && q.2.isEmpty
    else false

/-- Whether a character list is a syntactically valid quantity: an optional
sign, a number, and a valid suffix. -/
def validQuantityChars (cs : List Char) : Bool :=
  let cs2 :=
    match cs with
    | '+' :: r => r
    | '-' :: r => r
    | r => r
  match parseNumber cs2 with
  | none => false
  | some rest => validSuffix rest

/-- Modelled from the spec: the external quantity parser used by
`resource.MustParse` — a textual resource amount with unit suffixes, parsed
and validated at synthesis time; `none` models a parse failure (which
`MustParse` turns into a panic). -/
def parseQuantity (str : String) : Option Quantity :=
  if validQuantityChars str.data then some ⟨str⟩ else none

/-- The resource dimensions this core writes into the request map
(`v1.ResourceCPU`, `v1.ResourceMemory`). -/
inductive ResourceName
  | cpu
  | memory
  deriving DecidableEq

/-- The one synthesis-time error: a malformed resource quantity, carrying the
offending field (the two distinct panic sites of `createStatefulSet`) and the
offending string (carried by the `MustParse` panic). -/
inductive SynthError
  | malformedQuantity (field : ResourceName) (value : String)
  deriving DecidableEq

/-- `v1.ObjectFieldSelector`. -/
structure ObjectFieldSelector where
  apiVersion : String
  fieldPath : String
  deriving DecidableEq

/-- `v1.SecretKeySelector` (local object reference name plus key). -/
structure SecretKeySelector where
  name : String
  key : String
  deriving DecidableEq

/-- `v1.EnvVarSource`: at most one of a downward field reference or a secret
key reference. -/
structure EnvVarSource where
  fieldRef : Option ObjectFieldSelector
  secretKeyRef : Option SecretKeySelector
  deriving DecidableEq

/-- `v1.EnvVar`. -/
structure EnvVar where
  name : String
  value : String
  valueFrom : Option EnvVarSource
  deriving DecidableEq

/-- `v1.ContainerPort`. -/
structure ContainerPort where
  containerPort : Int
  protocol : String
  deriving DecidableEq

/-- `v1.VolumeMount`. -/
structure VolumeMount where
  name : String
  mountPath : String
  deriving DecidableEq

/-- `v1.ResourceRequirements` (only `Requests` is populated by this core);
the request map is modelled as an association list in insertion order. -/
structure ResourceRequirements where
  requests : List (ResourceName × Quantity)
  deriving DecidableEq

/-- `v1.Container`. -/
structure Container where
  name : String
  image : String
  imagePullPolicy : String
  resources : ResourceRequirements
  ports : List ContainerPort
  volumeMounts : List VolumeMount
  env : List EnvVar
  deriving DecidableEq

/-- `v1.Volume` (this core only ever sets an `EmptyDir` source). -/
structure Volume where
  name : String
  emptyDir : Bool
  deriving DecidableEq

/-- `v1.PodSpec`. -/
structure PodSpec where
  terminationGracePeriodSeconds : Int
  volumes : List Volume
  containers : List Container
  deriving DecidableEq

/-- `v1.ObjectMeta` (the fields this core writes). -/
structure ObjectMeta where
  name : String
  labels : List (String × String)
  annotations : List (String × String)
  deriving DecidableEq

/-- `v1.PodTemplateSpec`. -/
structure PodTemplateSpec where
  objectMeta : ObjectMeta
  spec : PodSpec
  deriving DecidableEq

/-- `v1beta1.StatefulSetSpec`. -/
structure StatefulSetSpec where
  replicas : Int
  serviceName : String
  template : PodTemplateSpec
  deriving DecidableEq

/-- `v1beta1.StatefulSet`. -/
structure StatefulSet where
  objectMeta : ObjectMeta
  spec : StatefulSetSpec
  deriving DecidableEq

/-- `v1.Secret` (opaque key/value data). -/
structure Secret where
  objectMeta : ObjectMeta
  type : String
  data : List (String × String)
  deriving DecidableEq

/-- `v1.ServicePort`. -/
structure ServicePort where
  port : Int
  targetPort : Int
  deriving DecidableEq

/-- `v1.ServiceSpec`. -/
structure ServiceSpec where
  type : String
  ports : List ServicePort
  deriving DecidableEq

/-- `v1.Service`. -/
structure Service where
  objectMeta : ObjectMeta
  spec : ServiceSpec
  deriving DecidableEq

/-- `v1.Endpoints` (created empty: no subsets). -/
structure Endpoints where
  objectMeta : ObjectMeta
  deriving DecidableEq

/-- The spec's resource requests (`Spec.Resources`): each a quantity string,
empty meaning absent. -/
structure Resources where
  Cpu : String
  Memory : String
  deriving DecidableEq

/-- The cluster spec (`Spec` of the third-party resource). -/
structure PostgresSpec where
  Resources : Resources
  NumberOfInstances : Int
  deriving DecidableEq

/-- The cluster object's metadata. -/
structure ClusterMetadata where
  Name : String
  deriving DecidableEq

/-- The declarative cluster object (`*c.cluster`). -/
structure PostgresCluster where
  Metadata : ClusterMetadata
  Spec : PostgresSpec
  deriving DecidableEq

/-- A role credential (`pgUsers` entry): opaque username/password material. -/
structure PgUser where
  username : String
  password : String
  deriving DecidableEq

/-- The receiver of the reconcile operations: the cluster object plus the
configuration fields `objects.go` reads. -/
structure Cluster where
  cluster : PostgresCluster
  etcdHost : String
  dockerImage : String
  pgUsers : List PgUser
  deriving DecidableEq

/-- Modelled from the spec: `c.labels()` (defined outside `objects.go`) — the
cluster-ownership label set, derived solely from the cluster identity. -/
def Cluster.labels (c : Cluster) : List (String × String) :=
  [("application", "spilo"), ("spilo-cluster", c.cluster.Metadata.Name)]

/-- Modelled from the spec: `c.credentialSecretName(role)` (defined outside
`objects.go`) — the secret name as a deterministic function of the cluster
name and the role identifier. -/
def Cluster.credentialSecretName (c : Cluster) (role : String) : String :=
  c.cluster.Metadata.Name ++ "." ++ role ++ ".credentials"

/-- The fixed environment variable list built at the top of
`createStatefulSet` (lines 15-68). -/
def Cluster.envVars (c : Cluster) : List EnvVar :=
  let clusterName := c.cluster.Metadata.Name
  [ { name := "SCOPE", value := clusterName, valueFrom := none },
    { name := "PGROOT", value := "/home/postgres/pgdata/pgroot",
      valueFrom := none },
    { name := "ETCD_HOST", value := c.etcdHost, valueFrom := none },
    { name := "POD_IP", value := "",
      valueFrom := some
        { fieldRef := some { apiVersion := "v1", fieldPath := "status.podIP" },
          secretKeyRef := none } },
    { name := "POD_NAMESPACE", value := "",
      valueFrom := some
        { fieldRef := some
            { apiVersion := "v1", fieldPath := "metadata.namespace" },
          secretKeyRef := none } },
    { name := "PGPASSWORD_SUPERUSER", value := "",
      valueFrom := some
        { fieldRef := none,
          secretKeyRef := some
            { name := c.credentialSecretName "superuser",
              key := "password" } } },
    { name := "PGPASSWORD_STANDBY", value := "",
      valueFrom := some
        { fieldRef := none,
          secretKeyRef := some
            { name := c.credentialSecretName "replication",
              key := "password" } } } ]

/-- The incremental resource-request construction of `createStatefulSet`
(lines 70-78): each dimension is added only when non-empty, and a string
`MustParse` rejects aborts the build (the panic, modelled as an error). -/
def Cluster.makeResourceList (c : Cluster) :
    Except SynthError (List (ResourceName × Quantity)) :=
  let cpu := c.cluster.Spec.Resources.Cpu
  let memory := c.cluster.Spec.Resources.Memory
  let afterCpu : Except SynthError (List (ResourceName × Quantity)) :=
    if cpu ≠ "" then
      match parseQuantity cpu with
      | some q => Except.ok [(ResourceName.cpu, q)]
      | none => Except.error (SynthError.malformedQuantity ResourceName.cpu cpu)
    else Except.ok []
  match afterCpu with
  | Except.error e => Except.error e
  | Except.ok l =>
    if memory ≠ "" then
      match parseQuantity memory with
      | some q => Except.ok (l ++ [(ResourceName.memory, q)])
      | none =>
        Except.error (SynthError.malformedQuantity ResourceName.memory memory)
    else Except.ok l

/-- The statefulset object built by `createStatefulSet` (lines 80-137) once
the resource-request list is available. -/
def Cluster.buildStatefulSet (c : Cluster)
    (resourceList : List (ResourceName × Quantity)) : StatefulSet :=
  let clusterName := c.cluster.Metadata.Name
  let container : Container :=
    { name := clusterName,
      image := c.dockerImage,
      imagePullPolicy := "Always",
      resources := { requests := resourceList },
      ports :=
        [ { containerPort := 8008, protocol := "TCP" },
          { containerPort := 5432, protocol := "TCP" } ],
      volumeMounts :=
        [ { name := "pgdata", mountPath := "/home/postgres/pgdata" } ],
      env := c.envVars }
  let podSpec : PodSpec :=
    { terminationGracePeriodSeconds := 30,
      volumes := [ { name := "pgdata", emptyDir := true } ],
      containers := [container] }
  let template : PodTemplateSpec :=
    { objectMeta :=
        { name := "",
          labels := c.labels,
          annotations :=
            [("pod.alpha.kubernetes.io/initialized", "true")] },
      spec := podSpec }
  { objectMeta :=
      { name := clusterName, labels := c.labels, annotations := [] },
    spec :=
      { replicas := c.cluster.Spec.NumberOfInstances,
        serviceName := clusterName,
        template := template } }

/-- The full synthesis part of `createStatefulSet`: either the statefulset
object, or the configuration error raised while parsing a quantity (before
any container object is produced). -/
def Cluster.synthStatefulSet (c : Cluster) : Except SynthError StatefulSet :=
  match c.makeResourceList with
  | Except.error e => Except.error e
  | Except.ok resourceList => Except.ok (c.buildStatefulSet resourceList)

/-- The observable actions of a reconcile pass: every orchestration-client
call together with the response the platform gave it, and every line emitted
to the observability collaborator (the logger). -/
inductive Event
  | createStatefulSet (ss : StatefulSet) (err : Option KubeErr)
  | createSecret (s : Secret) (err : Option KubeErr)
  | updateSecret (s : Secret) (err : Option KubeErr)
  | getService (name : String) (err : Option KubeErr)
  | createService (svc : Service) (err : Option KubeErr)
  | getEndpoints (name : String) (err : Option KubeErr)
  | createEndpoints (ep : Endpoints) (err : Option KubeErr)
  | logInfo (msg : String)
  | logError (msg : String)
  deriving DecidableEq

/-- Whether an event is a mutating (create/update) platform call. -/
def Event.isMutating : Event → Bool
  | Event.createStatefulSet _ _ => true
  | Event.createSecret _ _ => true
  | Event.updateSecret _ _ => true
  | Event.createService _ _ => true
  | Event.createEndpoints _ _ => true
  | _ => false

/-- Whether an event is a read (get) platform call. -/
def Event.isGet : Event → Bool
  | Event.getService _ _ => true
  | Event.getEndpoints _ _ => true
  | _ => false

/-- Whether an event is a report to the observability collaborator. -/
def Event.isLog : Event → Bool
  | Event.logInfo _ => true
  | Event.logError _ => true
  | _ => false

/-- Whether every mutating call of a trace is later reported to the
observability collaborator. -/
def mutatingReported : List Event → Bool
  | [] => true
  | e :: rest =>
    (if e.isMutating then rest.any Event.isLog else true) &&
      mutatingReported rest

/-- The trace of a reconcile operation that may abort by panic: a panic
produces no platform calls past the point of failure. -/
def traceOf : Except SynthError (List Event) → List Event
  | Except.ok t => t
  | Except.error _ => []

/-- `createStatefulSet` (lines 12-140): synthesize, then issue exactly one
unconditional create, discarding the platform's response (line 139 drops both
return values and logs nothing). -/
def Cluster.createStatefulSet (c : Cluster) (createErr : Option KubeErr) :
    Except SynthError (List Event) :=
  match c.synthStatefulSet with
  | Except.error e => Except.error e
  | Except.ok ss => Except.ok [Event.createStatefulSet ss createErr]

/-- The secret built for one role inside the `applySecrets` loop
(lines 145-155). -/
def Cluster.mkSecret (c : Cluster) (user : PgUser) : Secret :=
  { objectMeta :=
      { name := c.credentialSecretName user.username,
        labels := c.labels,
        annotations := [] },
    type := "Opaque",
    data := [("username", user.username), ("password", user.password)] }

/-- One iteration of the `applySecrets` loop (lines 156-170): attempt create;
on "already exists" fall back to update and report its outcome; otherwise
report the create's outcome. `resp` gives the platform's (create, update)
responses for the role. -/
def Cluster.applySecretsStep (c : Cluster) (user : PgUser)
    (resp : PgUser → Option KubeErr × Option KubeErr) : List Event :=
  let secret := c.mkSecret user
  let createErr := (resp user).1
  let updateErr := (resp user).2
  if IsKubernetesResourceAlreadyExistError createErr then
    Event.createSecret secret createErr ::
      Event.updateSecret secret updateErr ::
      (match updateErr with
       | some _ => [Event.logError "Error while updating secret"]
       | none => [Event.logInfo "Secret updated"])
  else
    Event.createSecret secret createErr ::
      (match createErr with
       | some _ => [Event.logError "Error while creating secret"]
       | none => [Event.logInfo "Secret created"])

/-- The `applySecrets` loop over a credential list (lines 142-171): each role
is handled independently and processing never aborts early. -/
def applySecretsLoop (c : Cluster) (users : List PgUser)
    (resp : PgUser → Option KubeErr × Option KubeErr) : List Event :=
  match users with
  | [] => []
  | user :: rest => c.applySecretsStep user resp ++ applySecretsLoop c rest resp

/-- `applySecrets` (lines 142-174): the loop applied to the cluster's
credential set. -/
def Cluster.applySecrets (c : Cluster)
    (resp : PgUser → Option KubeErr × Option KubeErr) : List Event :=
  applySecretsLoop c c.pgUsers resp

/-- The service object built by `createService` (lines 185-194). -/
def Cluster.mkService (c : Cluster) : Service :=
  { objectMeta :=
      { name := c.cluster.Metadata.Name,
        labels := c.labels,
        annotations := [] },
    spec :=
      { type := "ClusterIP",
        ports := [ { port := 5432, targetPort := 5432 } ] } }

/-- `createService` (lines 176-202): get first; on anything other than a
genuine "not found" skip creation and record "already exists"; only on "not
found" build the service and attempt create, reporting its outcome. -/
def Cluster.createService (c : Cluster) (getErr createErr : Option KubeErr) :
    List Event :=
  let clusterName := c.cluster.Metadata.Name
  if !ResourceNotFound getErr then
    [Event.getService clusterName getErr,
     Event.logInfo "Service already exists"]
  else
    Event.getService clusterName getErr ::
      Event.createService c.mkService createErr ::
      (match createErr with
       | some _ => [Event.logError "Error while creating service"]
       | none => [Event.logInfo "Service created"])

/-- The endpoint object built by `createEndPoint` (lines 213-218): created
empty (no subsets). -/
def Cluster.mkEndPoint (c : Cluster) : Endpoints :=
  { objectMeta :=
      { name := c.cluster.Metadata.Name,
        labels := c.labels,
        annotations := [] } }

/-- `createEndPoint` (lines 204-226): the same get-then-create-if-absent
pattern as `createService`. -/
def Cluster.createEndPoint (c : Cluster) (getErr createErr : Option KubeErr) :
    List Event :=
  let clusterName := c.cluster.Metadata.Name
  if !ResourceNotFound getErr then
    [Event.getEndpoints clusterName getErr,
     Event.logInfo "Endpoint already exists"]
  else
    Event.getEndpoints clusterName getErr ::
      Event.createEndpoints c.mkEndPoint createErr ::
      (match createErr with
       | some _ => [Event.logError "Error while creating endpoint"]
       | none => [Event.logInfo "Endpoint created"])

/-- The honest platform state for the service and endpoint kinds: the objects
that exist, keyed by name. -/
structure PlatformState where
  services : List Service
  endpoints : List Endpoints
  deriving DecidableEq

/-- The platform's response to a service get by name: success when the object
exists, "not found" otherwise. -/
def svcGetErr (st : PlatformState) (name : String) : Option KubeErr :=
  if st.services.any fun s => s.objectMeta.name == name then none
  else some KubeErr.notFound

/-- The platform's response to an endpoints get by name. -/
def epGetErr (st : PlatformState) (name : String) : Option KubeErr :=
  if st.endpoints.any fun e => e.objectMeta.name == name then none
  else some KubeErr.notFound

/-- One run of `createService` against the honest platform: get and create
responses are computed from the state, and a successful create inserts the
object. -/
def runCreateService (c : Cluster) (st : PlatformState) :
    PlatformState × List Event :=
  let name := c.cluster.Metadata.Name
  let ge := svcGetErr st name
  if ResourceNotFound ge then
    let svc := c.mkService
    if st.services.any fun s => s.objectMeta.name == svc.objectMeta.name then
      (st, c.createService ge (some KubeErr.alreadyExists))
    else
      ({ st with services := st.services ++ [svc] }, c.createService ge none)
  else (st, c.createService ge none)

/-- One run of `createEndPoint` against the honest platform. -/
def runCreateEndPoint (c : Cluster) (st : PlatformState) :
    PlatformState × List Event :=
  let name := c.cluster.Metadata.Name
  let ge := epGetErr st name
  if ResourceNotFound ge then
    let ep := c.mkEndPoint
    if st.endpoints.any fun e => e.objectMeta.name == ep.objectMeta.name then
      (st, c.createEndPoint ge (some KubeErr.alreadyExists))
    else
      ({ st with endpoints := st.endpoints ++ [ep] }, c.createEndPoint ge none)
  else (st, c.createEndPoint ge none)

/-- The empty platform state. -/
def emptyPlatform : PlatformState :=
  { services := [], endpoints := [] }

/-- A concrete example cluster matching the spec's end-to-end test vector. -/
def exCluster : Cluster :=
  { cluster :=
      { Metadata := { Name := "acid-test" },
        Spec :=
          { Resources := { Cpu := "", Memory := "1Gi" },
            NumberOfInstances := 2 } },
    etcdHost := "etcd.example:2379",
    dockerImage := "example/pg:1",
    pgUsers :=
      [ { username := "superuser", password := "pw1" },
        { username := "replication", password := "pw2" } ] }

/-- The example cluster with its credential list reordered (same cluster
identity). -/
def exClusterReordered : Cluster :=
  { cluster :=
      { Metadata := { Name := "acid-test" },
        Spec :=
          { Resources := { Cpu := "", Memory := "1Gi" },
            NumberOfInstances := 2 } },
    etcdHost := "other-etcd.example:2379",
    dockerImage := "example/pg:2",
    pgUsers :=
      [ { username := "replication", password := "pw2" },
        { username := "superuser", password := "pw1" } ] }

/-- The example cluster with a malformed CPU quantity. -/
def badCpuCluster : Cluster :=
  { cluster :=
      { Metadata := { Name := "acid-test" },
        Spec :=
          { Resources := { Cpu := "not-a-quantity", Memory := "" },
            NumberOfInstances := 2 } },
    etcdHost := "etcd.example:2379",
    dockerImage := "example/pg:1",
    pgUsers := [] }

/-- The example cluster with a malformed memory quantity. -/
def badMemCluster : Cluster :=
  { cluster :=
      { Metadata := { Name := "acid-test" },
        Spec :=
          { Resources := { Cpu := "", Memory := "bogus" },
            NumberOfInstances := 2 } },
    etcdHost := "etcd.example:2379",
    dockerImage := "example/pg:1",
    pgUsers := [] }

/-- Example platform responses for the credential loop: the superuser create
fails with a transport error, the replication create reports that the secret
already exists (its update succeeds). -/
def exResp : PgUser → Option KubeErr × Option KubeErr :=
  fun u =>
    if u.username == "superuser" then (some (KubeErr.other "boom"), none)
    else (some KubeErr.alreadyExists, none)

deriving instance DecidableEq for Except

/-- A successful quantity parse returns the textual form unchanged. -/
theorem parseQuantity_eq (s : String) (q : Quantity)
    (h : parseQuantity s = some q) : q = ⟨s⟩ := by
  unfold parseQuantity at h
  split at h
  · cases h
    rfl
  · cases h

/-- C1: if the spec supplies a non-empty CPU or memory resource string that
is not a syntactically valid quantity, synthesis of the workload fails with a
configuration error naming the offending field, propagated to the caller as
the whole result — no partial container object (and no platform call) is
produced. -/
theorem malformedQuantityFails (c : Cluster) (ce : Option KubeErr) :
    (c.cluster.Spec.Resources.Cpu ≠ "" →
      parseQuantity c.cluster.Spec.Resources.Cpu = none →
      c.createStatefulSet ce =
        Except.error
          (SynthError.malformedQuantity ResourceName.cpu
            c.cluster.Spec.Resources.Cpu))
    ∧ ((c.cluster.Spec.Resources.Cpu = "" ∨
          (parseQuantity c.cluster.Spec.Resources.Cpu).isSome = true) →
        c.cluster.Spec.Resources.Memory ≠ "" →
        parseQuantity c.cluster.Spec.Resources.Memory = none →
        c.createStatefulSet ce =
          Except.error
            (SynthError.malformedQuantity ResourceName.memory
              c.cluster.Spec.Resources.Memory)) := by
  constructor
  · intro hne hp
    simp [Cluster.createStatefulSet, Cluster.synthStatefulSet,
      Cluster.makeResourceList, hne, hp]
  · intro hcpu hne hp
    rcases hcpu with hc | hc
    · simp [Cluster.createStatefulSet, Cluster.synthStatefulSet,
        Cluster.makeResourceList, hc, hne, hp]
    · obtain ⟨q, hq⟩ := Option.isSome_iff_exists.mp hc
      by_cases hcz : c.cluster.Spec.Resources.Cpu = ""
      · simp [Cluster.createStatefulSet, Cluster.synthStatefulSet,
          Cluster.makeResourceList, hcz, hne, hp]
      · simp [Cluster.createStatefulSet, Cluster.synthStatefulSet,
          Cluster.makeResourceList, hcz, hq, hne, hp]

/-- C1 witness: concrete malformed CPU and memory quantities abort synthesis
with the corresponding configuration errors. -/
theorem malformedQuantityFails_spot :
    badCpuCluster.createStatefulSet none =
      Except.error
        (SynthError.malformedQuantity ResourceName.cpu "not-a-quantity")
    ∧ badMemCluster.createStatefulSet none =
      Except.error (SynthError.malformedQuantity ResourceName.memory "bogus") :=
  ⟨(malformedQuantityFails badCpuCluster none).1 (by decide) (by decide),
   (malformedQuantityFails badMemCluster none).2 (Or.inl rfl) (by decide)
     (by decide)⟩

/-- C7: a resource dimension appears in the synthesized request list exactly
when the spec supplied a non-empty string for it, and with CPU absent the
list holds exactly the memory entry — never a zero-valued CPU entry. -/
theorem resourceOmission (c : Cluster) (rl : List (ResourceName × Quantity))
    (h : c.makeResourceList = Except.ok rl) :
    ((rl.any fun p => p.1 == ResourceName.cpu) =
        (c.cluster.Spec.Resources.Cpu != ""))
    ∧ ((rl.any fun p => p.1 == ResourceName.memory) =
        (c.cluster.Spec.Resources.Memory != ""))
    ∧ (c.cluster.Spec.Resources.Cpu = "" →
        c.cluster.Spec.Resources.Memory ≠ "" →
        rl =
          [(ResourceName.memory,
            Quantity.mk c.cluster.Spec.Resources.Memory)]) := by
  by_cases hc : c.cluster.Spec.Resources.Cpu = "" <;>
    by_cases hm : c.cluster.Spec.Resources.Memory = ""
  · simp [Cluster.makeResourceList, hc, hm] at h
    subst h
    simp [hc, hm]
  · rcases hq : parseQuantity c.cluster.Spec.Resources.Memory with _ | q
    · simp [Cluster.makeResourceList, hc, hm, hq] at h
    · rcases parseQuantity_eq _ _ hq with rfl
      simp [Cluster.makeResourceList, hc, hm, hq] at h
      subst h
      simp [hc, hm]
  · rcases hq : parseQuantity c.cluster.Spec.Resources.Cpu with _ | q
    · simp [Cluster.makeResourceList, hc, hq] at h
    · simp [Cluster.makeResourceList, hc, hm, hq] at h
      subst h
      simp [hc, hm]
  · rcases hq : parseQuantity c.cluster.Spec.Resources.Cpu with _ | q
    · simp [Cluster.makeResourceList, hc, hq] at h
    · rcases hq2 : parseQuantity c.cluster.Spec.Resources.Memory with _ | q2
      · simp [Cluster.makeResourceList, hc, hm, hq, hq2] at h
      · simp [Cluster.makeResourceList, hc, hm, hq, hq2] at h
        subst h
        simp [hc, hm]

/-- C7 witness: the spec vector with CPU absent and memory `1Gi` yields
exactly the memory entry. -/
theorem resourceOmission_spot :
    exCluster.makeResourceList =
      Except.ok [(ResourceName.memory, Quantity.mk "1Gi")]
    ∧ (([(ResourceName.memory, Quantity.mk "1Gi")].any
          fun p => p.1 == ResourceName.cpu) =
        (exCluster.cluster.Spec.Resources.Cpu != ""))
    ∧ (([(ResourceName.memory, Quantity.mk "1Gi")].any
          fun p => p.1 == ResourceName.memory) =
        (exCluster.cluster.Spec.Resources.Memory != ""))
    ∧ [(ResourceName.memory, Quantity.mk "1Gi")] =
        [(ResourceName.memory,
          Quantity.mk exCluster.cluster.Spec.Resources.Memory)] := by
  have h :=
    resourceOmission exCluster [(ResourceName.memory, Quantity.mk "1Gi")]
      (by decide)
  exact ⟨by decide, h.1, h.2.1, h.2.2 rfl (by decide)⟩

/-- C2: the credential secret name is a deterministic pure function of the
cluster name and the role identifier — independent of the credential list,
its order, and all other configuration — and it is exactly the name the
workload's password environment variables reference for that role. -/
theorem secretNameDeterministic (c c2 : Cluster) (u : PgUser)
    (hname : c2.cluster.Metadata.Name = c.cluster.Metadata.Name) :
    (c.mkSecret u).objectMeta.name = c.credentialSecretName u.username
    ∧ c2.credentialSecretName u.username = c.credentialSecretName u.username
    ∧ c.envVars[5]? =
        some
          { name := "PGPASSWORD_SUPERUSER", value := "",
            valueFrom :=
              some
                { fieldRef := none,
                  secretKeyRef :=
                    some
                      { name := c.credentialSecretName "superuser",
                        key := "password" } } }
    ∧ c.envVars[6]? =
        some
          { name := "PGPASSWORD_STANDBY", value := "",
            valueFrom :=
              some
                { fieldRef := none,
                  secretKeyRef :=
                    some
                      { name := c.credentialSecretName "replication",
                        key := "password" } } } := by
  refine ⟨rfl, ?_, rfl, rfl⟩
  simp [Cluster.credentialSecretName, hname]

/-- C2 witness: for the example cluster and a reordered credential list with
the same cluster name, the superuser secret name agrees and is what the
workload references. -/
theorem secretNameDeterministic_spot :
    (exCluster.mkSecret { username := "superuser", password := "pw1" }).objectMeta.name =
      exCluster.credentialSecretName "superuser"
    ∧ exClusterReordered.credentialSecretName "superuser" =
      exCluster.credentialSecretName "superuser"
    ∧ exCluster.envVars[5]? =
        some
          { name := "PGPASSWORD_SUPERUSER", value := "",
            valueFrom :=
              some
                { fieldRef := none,
                  secretKeyRef :=
                    some
                      { name := exCluster.credentialSecretName "superuser",
                        key := "password" } } }
    ∧ exCluster.envVars[6]? =
        some
          { name := "PGPASSWORD_STANDBY", value := "",
            valueFrom :=
              some
                { fieldRef := none,
                  secretKeyRef :=
                    some
                      { name := exCluster.credentialSecretName "replication",
                        key := "password" } } } :=
  secretNameDeterministic exCluster exClusterReordered
    { username := "superuser", password := "pw1" } (by decide)

/-- C9: every object produced by the core — the workload set and its pod
template, each credential secret, the service, and the endpoint — carries the
identical cluster-ownership label set, derived solely from the cluster
identity. -/
theorem uniformLabels (c c2 : Cluster) (u : PgUser)
    (rl : List (ResourceName × Quantity))
    (hname : c2.cluster.Metadata.Name = c.cluster.Metadata.Name) :
    (c.buildStatefulSet rl).objectMeta.labels = c.labels
    ∧ (c.buildStatefulSet rl).spec.template.objectMeta.labels = c.labels
    ∧ (c.mkSecret u).objectMeta.labels = c.labels
    ∧ c.mkService.objectMeta.labels = c.labels
    ∧ c.mkEndPoint.objectMeta.labels = c.labels
    ∧ c2.labels = c.labels := by
  refine ⟨rfl, rfl, rfl, rfl, rfl, ?_⟩
  simp [Cluster.labels, hname]

/-- C9 witness: the example cluster's objects all carry its label set, which
depends only on the cluster identity. -/
theorem uniformLabels_spot :
    (exCluster.buildStatefulSet []).objectMeta.labels = exCluster.labels
    ∧ (exCluster.buildStatefulSet []).spec.template.objectMeta.labels =
        exCluster.labels
    ∧ (exCluster.mkSecret
          { username := "superuser", password := "pw1" }).objectMeta.labels =
        exCluster.labels
    ∧ exCluster.mkService.objectMeta.labels = exCluster.labels
    ∧ exCluster.mkEndPoint.objectMeta.labels = exCluster.labels
    ∧ exClusterReordered.labels = exCluster.labels :=
  uniformLabels exCluster exClusterReordered
    { username := "superuser", password := "pw1" } [] (by decide)

/-- C10: the synthesized workload's governing service name field is the
cluster name, which is exactly the name under which the service reconcile
operation creates the network service. -/
theorem workloadReferencesOwnService (c : Cluster)
    (rl : List (ResourceName × Quantity)) (ce : Option KubeErr) :
    (c.buildStatefulSet rl).spec.serviceName = c.cluster.Metadata.Name
    ∧ c.mkService.objectMeta.name = c.cluster.Metadata.Name
    ∧ (c.buildStatefulSet rl).spec.serviceName = c.mkService.objectMeta.name
    ∧ c.createService (some KubeErr.notFound) ce =
        Event.getService c.cluster.Metadata.Name (some KubeErr.notFound) ::
          Event.createService c.mkService ce ::
          (match ce with
           | some _ => [Event.logError "Error while creating service"]
           | none => [Event.logInfo "Service created"]) :=
  ⟨rfl, rfl, rfl, rfl⟩


/-- Reportedness of mutating calls is preserved by concatenating reported
traces. -/
theorem mutatingReported_append (xs ys : List Event)
    (hx : mutatingReported xs = true) (hy : mutatingReported ys = true) :
    mutatingReported (xs ++ ys) = true := by
  induction xs with
  | nil => simpa using hy
  | cons e rest ih =>
    rw [List.cons_append]
    unfold mutatingReported at hx ⊢
    rw [Bool.and_eq_true] at hx ⊢
    refine ⟨?_, ih hx.2⟩
    cases hm : e.isMutating
    · simp [hm]
    · rw [hm] at hx
      simp only [if_true] at hx ⊢
      rw [List.any_append, hx.1]
      simp

/-- Every secret-loop iteration reports each of its mutating calls. -/
theorem mutatingReported_step (c : Cluster) (u : PgUser)
    (resp : PgUser → Option KubeErr × Option KubeErr) :
    mutatingReported (c.applySecretsStep u resp) = true := by
  unfold Cluster.applySecretsStep
  cases hb : IsKubernetesResourceAlreadyExistError (resp u).1
  · cases hce : (resp u).1 <;> rw [hce] at hb <;>
      simp [hce, hb, mutatingReported, Event.isMutating, Event.isLog]
  · cases hue : (resp u).2 <;>
      simp [hb, hue, mutatingReported, Event.isMutating, Event.isLog]

/-- The whole secret loop reports each of its mutating calls. -/
theorem mutatingReported_loop (c : Cluster) (users : List PgUser)
    (resp : PgUser → Option KubeErr × Option KubeErr) :
    mutatingReported (applySecretsLoop c users resp) = true := by
  induction users with
  | nil => rfl
  | cons u rest ih =>
    exact mutatingReported_append _ _ (mutatingReported_step c u resp) ih

/-- C3 counterexample: the claim fails as stated — the workload reconcile
operation issues a create (here failing with a platform error) whose attempt
and outcome are reported nowhere: its trace holds one mutating call and no
report to the observability collaborator at all. -/
theorem outcomesReported_cex :
    ((traceOf (exCluster.createStatefulSet (some (KubeErr.other "boom")))).filter
        Event.isMutating).length = 1
    ∧ (traceOf (exCluster.createStatefulSet (some (KubeErr.other "boom")))).filter
        Event.isLog = []
    ∧ mutatingReported
        (traceOf (exCluster.createStatefulSet (some (KubeErr.other "boom")))) =
      false := by
  decide

/-- C3 (amended): for the secret, service, and endpoint reconcile operations
every create or update attempt has its outcome reported to the observability
collaborator, and no structured error is returned to any operation's caller
(the trace is the operations' whole result); the workload reconcile
operation, by contrast, reports neither its create attempt nor its outcome —
its trace contains no report at all. -/
theorem outcomesReported (c : Cluster)
    (resp : PgUser → Option KubeErr × Option KubeErr)
    (ge ce ge2 ce2 sce : Option KubeErr) :
    mutatingReported (c.applySecrets resp) = true
    ∧ mutatingReported (c.createService ge ce) = true
    ∧ mutatingReported (c.createEndPoint ge2 ce2) = true
    ∧ (traceOf (c.createStatefulSet sce)).filter Event.isLog = [] := by
  refine ⟨mutatingReported_loop c c.pgUsers resp, ?_, ?_, ?_⟩
  · unfold Cluster.createService
    cases hb : ResourceNotFound ge
    · simp [hb, mutatingReported, Event.isMutating, Event.isLog]
    · cases ce <;>
        simp [hb, mutatingReported, Event.isMutating, Event.isLog]
  · unfold Cluster.createEndPoint
    cases hb : ResourceNotFound ge2
    · simp [hb, mutatingReported, Event.isMutating, Event.isLog]
    · cases ce2 <;>
        simp [hb, mutatingReported, Event.isMutating, Event.isLog]
  · unfold Cluster.createStatefulSet
    cases h : c.synthStatefulSet <;> simp [h, traceOf, Event.isLog]

/-- Events of one credential's iteration belong to the loop's trace for any
credential list containing it. -/
theorem mem_applySecretsLoop (c : Cluster) (users : List PgUser)
    (resp : PgUser → Option KubeErr × Option KubeErr) (u : PgUser)
    (hu : u ∈ users) (e : Event) (he : e ∈ c.applySecretsStep u resp) :
    e ∈ applySecretsLoop c users resp := by
  induction users with
  | nil => cases hu
  | cons v rest ih =>
    rcases List.mem_cons.mp hu with h | h
    · subst h
      exact List.mem_append_left _ he
    · exact List.mem_append_right _ (ih h)

/-- C4: `applySecrets` attempts a create for every role; on "already exists"
it falls back to an update carrying the full username/password overwrite; a
platform error on one role is recorded to the logger but never aborts the
loop — every role's create attempt appears in the trace regardless of the
other roles' outcomes. -/
theorem secretsBestEffort (c : Cluster)
    (resp : PgUser → Option KubeErr × Option KubeErr) (u : PgUser)
    (m : String) (hu : u ∈ c.pgUsers) :
    Event.createSecret (c.mkSecret u) (resp u).1 ∈ c.applySecrets resp
    ∧ ((resp u).1 = some KubeErr.alreadyExists →
        Event.updateSecret (c.mkSecret u) (resp u).2 ∈ c.applySecrets resp)
    ∧ (c.mkSecret u).data =
        [("username", u.username), ("password", u.password)]
    ∧ ((resp u).1 = some (KubeErr.other m) →
        Event.logError "Error while creating secret" ∈ c.applySecrets resp) := by
  refine ⟨?_, ?_, rfl, ?_⟩
  · apply mem_applySecretsLoop c c.pgUsers resp u hu
    unfold Cluster.applySecretsStep
    cases hb : IsKubernetesResourceAlreadyExistError (resp u).1 <;> simp [hb]
  · intro h
    apply mem_applySecretsLoop c c.pgUsers resp u hu
    unfold Cluster.applySecretsStep
    simp [h, IsKubernetesResourceAlreadyExistError]
  · intro h
    apply mem_applySecretsLoop c c.pgUsers resp u hu
    unfold Cluster.applySecretsStep
    simp [h, IsKubernetesResourceAlreadyExistError]

/-- C4 witness: with the superuser create failing on a transport error and
the replication create answered "already exists", the replication role is
still fully reconciled (create attempted, update fallback issued) and the
superuser failure is recorded. -/
theorem secretsBestEffort_spot :
    ({ username := "replication", password := "pw2" } : PgUser) ∈
      exCluster.pgUsers
    ∧ Event.createSecret
        (exCluster.mkSecret { username := "replication", password := "pw2" })
        (exResp { username := "replication", password := "pw2" }).1 ∈
      exCluster.applySecrets exResp
    ∧ Event.updateSecret
        (exCluster.mkSecret { username := "replication", password := "pw2" })
        (exResp { username := "replication", password := "pw2" }).2 ∈
      exCluster.applySecrets exResp
    ∧ Event.logError "Error while creating secret" ∈
      exCluster.applySecrets exResp := by
  have h :=
    secretsBestEffort exCluster exResp
      { username := "replication", password := "pw2" } "boom" (by decide)
  have h2 :=
    secretsBestEffort exCluster exResp
      { username := "superuser", password := "pw1" } "boom" (by decide)
  exact ⟨by decide, h.1, h.2.1 (by decide), h2.2.2.2 (by decide)⟩

/-- C5: reconciling the service (resp. endpoint) twice against an initially
empty platform leaves exactly one object; the second invocation issues zero
mutating calls; and for any get outcome other than a genuine "not found" the
driver issues no mutating call at all. -/
theorem serviceEndpointIdempotent (c : Cluster) (ge ce : Option KubeErr) :
    ((runCreateService c emptyPlatform).1.services.length = 1
      ∧ (runCreateService c (runCreateService c emptyPlatform).1).1 =
          (runCreateService c emptyPlatform).1
      ∧ (runCreateService c (runCreateService c emptyPlatform).1).2.filter
          Event.isMutating = [])
    ∧ ((runCreateEndPoint c emptyPlatform).1.endpoints.length = 1
      ∧ (runCreateEndPoint c (runCreateEndPoint c emptyPlatform).1).1 =
          (runCreateEndPoint c emptyPlatform).1
      ∧ (runCreateEndPoint c (runCreateEndPoint c emptyPlatform).1).2.filter
          Event.isMutating = [])
    ∧ (ResourceNotFound ge = false →
        (c.createService ge ce).filter Event.isMutating = []
        ∧ (c.createEndPoint ge ce).filter Event.isMutating = []) := by
  refine ⟨⟨?_, ?_, ?_⟩, ⟨?_, ?_, ?_⟩, ?_⟩
  · simp [runCreateService, svcGetErr, emptyPlatform, ResourceNotFound,
      Cluster.createService, Cluster.mkService, Event.isMutating]
  · simp [runCreateService, svcGetErr, emptyPlatform, ResourceNotFound,
      Cluster.createService, Cluster.mkService, Event.isMutating]
  · simp [runCreateService, svcGetErr, emptyPlatform, ResourceNotFound,
      Cluster.createService, Cluster.mkService, Event.isMutating]
  · simp [runCreateEndPoint, epGetErr, emptyPlatform, ResourceNotFound,
      Cluster.createEndPoint, Cluster.mkEndPoint, Event.isMutating]
  · simp [runCreateEndPoint, epGetErr, emptyPlatform, ResourceNotFound,
      Cluster.createEndPoint, Cluster.mkEndPoint, Event.isMutating]
  · simp [runCreateEndPoint, epGetErr, emptyPlatform, ResourceNotFound,
      Cluster.createEndPoint, Cluster.mkEndPoint, Event.isMutating]
  · intro hge
    constructor <;>
      simp [Cluster.createService, Cluster.createEndPoint, hge,
        Event.isMutating]

/-- C5 witness: the double run from the empty platform for the example
cluster, and a skip on a non-"not found" get outcome. -/
theorem serviceEndpointIdempotent_spot :
    ((runCreateService exCluster emptyPlatform).1.services.length = 1
      ∧ (runCreateService exCluster
            (runCreateService exCluster emptyPlatform).1).1 =
          (runCreateService exCluster emptyPlatform).1
      ∧ (runCreateService exCluster
            (runCreateService exCluster emptyPlatform).1).2.filter
          Event.isMutating = [])
    ∧ ((runCreateEndPoint exCluster emptyPlatform).1.endpoints.length = 1
      ∧ (runCreateEndPoint exCluster
            (runCreateEndPoint exCluster emptyPlatform).1).1 =
          (runCreateEndPoint exCluster emptyPlatform).1
      ∧ (runCreateEndPoint exCluster
            (runCreateEndPoint exCluster emptyPlatform).1).2.filter
          Event.isMutating = [])
    ∧ ((exCluster.createService (some (KubeErr.other "boom")) none).filter
          Event.isMutating = []
        ∧ (exCluster.createEndPoint (some (KubeErr.other "boom")) none).filter
          Event.isMutating = []) := by
  have h :=
    serviceEndpointIdempotent exCluster (some (KubeErr.other "boom")) none
  exact ⟨h.1, h.2.1, h.2.2 rfl⟩

/-- C6 counterexample: the claim fails as stated — for a cluster spec with a
malformed CPU quantity the workload reconcile operation issues no create call
at all: it aborts during synthesis, so "exactly one create call for every
cluster spec" is false. -/
theorem unconditionalWorkloadCreate_cex :
    badCpuCluster.createStatefulSet none =
      Except.error
        (SynthError.malformedQuantity ResourceName.cpu "not-a-quantity")
    ∧ (traceOf (badCpuCluster.createStatefulSet none)).filter
        Event.isMutating = [] := by
  decide

/-- C6 (amended): for every cluster spec whose non-empty resource strings are
syntactically valid quantities, the workload reconcile operation issues
exactly one platform call — an unconditional create: no existence check (get)
precedes it and the trace has the same shape whatever the platform's
response, "already exists" included. -/
theorem unconditionalWorkloadCreate (c : Cluster)
    (rl : List (ResourceName × Quantity)) (ce : Option KubeErr)
    (h : c.makeResourceList = Except.ok rl) :
    c.createStatefulSet ce =
      Except.ok [Event.createStatefulSet (c.buildStatefulSet rl) ce]
    ∧ (traceOf (c.createStatefulSet ce)).filter Event.isGet = []
    ∧ (traceOf (c.createStatefulSet ce)).filter Event.isMutating =
        [Event.createStatefulSet (c.buildStatefulSet rl) ce] := by
  have h1 : c.createStatefulSet ce =
      Except.ok [Event.createStatefulSet (c.buildStatefulSet rl) ce] := by
    unfold Cluster.createStatefulSet Cluster.synthStatefulSet
    rw [h]
  refine ⟨h1, ?_, ?_⟩ <;>
    simp [h1, traceOf, Event.isGet, Event.isMutating]

/-- C6 witness: the example cluster's workload reconcile issues exactly the
one create call. -/
theorem unconditionalWorkloadCreate_spot :
    exCluster.makeResourceList =
      Except.ok [(ResourceName.memory, Quantity.mk "1Gi")]
    ∧ (exCluster.createStatefulSet none =
        Except.ok
          [Event.createStatefulSet
            (exCluster.buildStatefulSet
              [(ResourceName.memory, Quantity.mk "1Gi")]) none]
      ∧ (traceOf (exCluster.createStatefulSet none)).filter Event.isGet = []
      ∧ (traceOf (exCluster.createStatefulSet none)).filter
          Event.isMutating =
        [Event.createStatefulSet
          (exCluster.buildStatefulSet
            [(ResourceName.memory, Quantity.mk "1Gi")]) none]) :=
  ⟨by decide,
   unconditionalWorkloadCreate exCluster
     [(ResourceName.memory, Quantity.mk "1Gi")] none (by decide)⟩

/-- C8: the synthesized workload container carries exactly seven environment
variables — SCOPE (cluster name), PGROOT (fixed literal path), ETCD_HOST
(spec's infrastructure endpoint), POD_IP and POD_NAMESPACE (platform field
references), PGPASSWORD_SUPERUSER and PGPASSWORD_STANDBY (references to the
password key of the corresponding role's credential secret) — and the
credential entries carry no inline value. -/
theorem workloadEnvContract (c : Cluster)
    (rl : List (ResourceName × Quantity))
    (h : c.makeResourceList = Except.ok rl) :
    c.synthStatefulSet = Except.ok (c.buildStatefulSet rl)
    ∧ ((c.buildStatefulSet rl).spec.template.spec.containers.map
        fun ct => ct.env) =
      [[ { name := "SCOPE", value := c.cluster.Metadata.Name,
           valueFrom := none },
         { name := "PGROOT", value := "/home/postgres/pgdata/pgroot",
           valueFrom := none },
         { name := "ETCD_HOST", value := c.etcdHost, valueFrom := none },
         { name := "POD_IP", value := "",
           valueFrom :=
             some
               { fieldRef :=
                   some { apiVersion := "v1", fieldPath := "status.podIP" },
                 secretKeyRef := none } },
         { name := "POD_NAMESPACE", value := "",
           valueFrom :=
             some
               { fieldRef :=
                   some
                     { apiVersion := "v1",
                       fieldPath := "metadata.namespace" },
                 secretKeyRef := none } },
         { name := "PGPASSWORD_SUPERUSER", value := "",
           valueFrom :=
             some
               { fieldRef := none,
                 secretKeyRef :=
                   some
                     { name := c.credentialSecretName "superuser",
                       key := "password" } } },
         { name := "PGPASSWORD_STANDBY", value := "",
           valueFrom :=
             some
               { fieldRef := none,
                 secretKeyRef :=
                   some
                     { name := c.credentialSecretName "replication",
                       key := "password" } } } ]] := by
  constructor
  · unfold Cluster.synthStatefulSet
    rw [h]
  · rfl

/-- C8 witness: the example spec's workload carries exactly the seven
expected environment variables, with the password references pointing at the
role secrets by name. -/
theorem workloadEnvContract_spot :
    exCluster.makeResourceList =
      Except.ok [(ResourceName.memory, Quantity.mk "1Gi")]
    ∧ (exCluster.synthStatefulSet =
        Except.ok
          (exCluster.buildStatefulSet
            [(ResourceName.memory, Quantity.mk "1Gi")])
      ∧ ((exCluster.buildStatefulSet
            [(ResourceName.memory,
              Quantity.mk "1Gi")]).spec.template.spec.containers.map
          fun ct => ct.env) =
        [[ { name := "SCOPE", value := "acid-test", valueFrom := none },
           { name := "PGROOT", value := "/home/postgres/pgdata/pgroot",
             valueFrom := none },
           { name := "ETCD_HOST", value := "etcd.example:2379",
             valueFrom := none },
           { name := "POD_IP", value := "",
             valueFrom :=
               some
                 { fieldRef :=
                     some
                       { apiVersion := "v1", fieldPath := "status.podIP" },
                   secretKeyRef := none } },
           { name := "POD_NAMESPACE", value := "",
             valueFrom :=
               some
                 { fieldRef :=
                     some
                       { apiVersion := "v1",
                         fieldPath := "metadata.namespace" },
                   secretKeyRef := none } },
           { name := "PGPASSWORD_SUPERUSER", value := "",
             valueFrom :=
               some
                 { fieldRef := none,
                   secretKeyRef :=
                     some
                       { name := "acid-test.superuser.credentials",
                         key := "password" } } },
           { name := "PGPASSWORD_STANDBY", value := "",
             valueFrom :=
               some
                 { fieldRef := none,
                   secretKeyRef :=
                     some
                       { name := "acid-test.replication.credentials",
                         key := "password" } } } ]]) :=
  ⟨by decide,
   workloadEnvContract exCluster [(ResourceName.memory, Quantity.mk "1Gi")]
     (by decide)⟩
